import Mathlib

/-! Verification of the DolphinVision inference node
(`dolphin_vision_node.py`, class `DolphinVisionNode`) against its design
specification. The Python class is shallowly embedded below: external
collaborators (the pretrained-model provider, the tokenizer, the
quantization backend, the PIL conversion) are parameters gathered in an
`Env` record, instance attributes are the fields of `NodeState`, and
every Python exception that the source can raise or catch is carried
explicitly in `Except`. -/

namespace DolphinVision

/-- The literal image marker `<image>` used by the node, as a character list. -/
def imageMarker : List Char := ['<', 'i', 'm', 'a', 'g', 'e', '>']

/-- A torch tensor, abstracted to its shape tuple and its raw byte
content (`tobytes`). Numeric payloads play no role in any claim. -/
structure Tensor where
  shape : List Nat
  data : List Nat

deriving instance DecidableEq for Tensor

/-- An opaque handle to a PIL image produced by `ToPILImage`. -/
abbrev PILImage := Nat

/-- An opaque handle to the processed image tensor built by
`model.process_images` (the `.to(...)` device/dtype moves are identity
on this abstraction). -/
abbrev ImgTensor := Nat

/-- The loaded model object: its two methods used by the node.
`generate` takes the batched token tensor and stands for
`model.generate(...)[0]`, returning row 0 of the generated batch;
a raised exception is an `Except.error` carrying `str(e)`. -/
structure Model where
  processImages : List PILImage → Except String ImgTensor
  generate : List (List Int) → ImgTensor → Except String (List Int)

/-- The loaded tokenizer object: chat-template rendering (applied to the
single user turn's content string), tokenization of a text chunk to
`input_ids` (HuggingFace token ids are nonnegative vocabulary indices,
hence `Nat`), and decoding with `skip_special_tokens=True`. -/
structure Tokenizer where
  applyChatTemplate : List Char → List Char
  tokenize : List Char → List Nat
  decode : List Int → String

/-- Outcome of `AutoModelForCausalLM.from_pretrained`: success, one of the
two exception classes caught at line 108 (`PreTrainedModelNotFoundError`,
`OSError`), or any other exception (which reaches the catch-all at line 134). -/
inductive FPErr where
  | notFoundOrOS (msg : String)
  | otherExc (msg : String)

/-- A Python exception split by class, where the source distinguishes
`ValueError` from everything else (lines 173-176). -/
inductive PyExc where
  | valueError (msg : String)
  | otherExc (msg : String)

/-- The external collaborators of one invocation: model provider,
quantization backend (`quantize_model` with its `bits` and `cache`
arguments; `.ok none` is a `None` return, `.error` a raised exception),
tokenizer provider, and the `ToPILImage` conversion. -/
structure Env where
  fromPretrained : Except FPErr Model
  quantize : Option Nat → Bool → Except String (Option Model)
  loadTokenizer : Except String Tokenizer
  toPIL : Tensor → Except PyExc PILImage

/-- The mutable instance attributes of `DolphinVisionNode`. `cache` is the
`self.cache` attribute read at line 213: `none` means the attribute does
not exist on the object (nothing in the class ever assigns it), so reading
it raises `AttributeError`. `modelReleased` tracks whether the backend's
`unload_model` has released the currently referenced model's weights; it
models external memory, not a Python attribute. -/
structure NodeState where
  model : Option Model
  tokenizer : Option Tokenizer
  quantized : Bool
  cache : Option Bool
  modelReleased : Bool

/-- The state `__init__` establishes (`model_name` and `device` are fixed
or external and not part of the state). Note that `self.cache` is not
assigned. -/
def initState : NodeState :=
  { model := none, tokenizer := none, quantized := false,
    cache := none, modelReleased := false }

/-- The pretrained model identifier set in `__init__`. -/
def model_name : String := "cognitivecomputations/dolphin-vision-7b"

def bf16_label : String := "bf16 (No Quantization, Highest Quality)"

def nf4_label : String := "nf4 (Fastest, Most Efficient, Lowest Quality)"

def fp4_label : String := "fp4 (Fast, Very Efficient, Low Quality)"

def int8_label : String := "int8 (Medium Speed, Efficient, Medium Quality)"

inductive QuantMethod where
  | bf16
  | bitsandbytes

deriving instance DecidableEq for QuantMethod

/-- The `quantization_map` dictionary of `load_model` together with its
`.get(quantization_type, (None, None))` lookup: `none` is the
`(None, None)` default that the `else` branch turns into the invalid-type
error. -/
def quantization_map (quantization_type : String) : Option (QuantMethod × Option Nat) :=
  if quantization_type = bf16_label then some (.bf16, none)
  else if quantization_type = nf4_label then some (.bitsandbytes, some 4)
  else if quantization_type = fp4_label then some (.bitsandbytes, some 4)
  else if quantization_type = int8_label then some (.bitsandbytes, some 8)
  else none

/-- Lines 121-132 of `load_model`: the `self.model is None` check, the
tokenizer load with its local handler, and `self.model.eval()` (a call on
the loaded model with no effect on the embedded state). On a tokenizer
failure the already-assigned `self.model` is left in place. -/
def load_finish (env : Env) (st : NodeState) : NodeState × Option String :=
  if st.model.isNone then (st, some "Failed to load model.")
  else
    match env.loadTokenizer with
    | .error e => (st, some ("Error loading tokenizer: " ++ e))
    | .ok tk => ({ st with tokenizer := some tk }, none)

/-- `load_model(quantization_type, cache)`, lines 74-135. The whole body is
wrapped in `try ... except Exception` (line 134), so the function always
returns: `some msg` is an error-message tuple, `none` the implicit `None`
of a successful load. State mutations that happened before an exception
persist, exactly as in Python. -/
def load_model (env : Env) (st : NodeState) (quantization_type : String)
    (cache : Bool) : NodeState × Option String :=
  match quantization_map quantization_type with
  | some (.bf16, _) =>
    match env.fromPretrained with
    | .ok m =>
      load_finish env { st with model := some m, quantized := false, modelReleased := false }
    | .error (.notFoundOrOS e) =>
      (st, some ("Error loading model '" ++ model_name ++
        "'. It might not exist or there was an OSError: " ++ e))
    | .error (.otherExc e) =>
      (st, some ("An unexpected error occurred while loading the model: " ++ e))
  | some (.bitsandbytes, bits) =>
    match env.quantize bits cache with
    | .ok mo =>
      load_finish env { st with model := mo, quantized := true, modelReleased := false }
    | .error e =>
      (st, some ("An unexpected error occurred while loading the model: " ++ e))
  | none => (st, some "Invalid quantization type.")

/-- `torch.Tensor.permute(2, 0, 1)` on a rank-3 tensor: reorders the shape
to channel-first; the byte content is kept (layout is abstracted away). -/
def Tensor.permute201 (t : Tensor) : Tensor :=
  { shape := [t.shape.getD 2 0, t.shape.getD 0 0, t.shape.getD 1 0], data := t.data }

/-- One iteration of the image-conversion loop (lines 165-176), with its
two handlers already applied, so the result is either a PIL image or the
final error message of the enclosing `return`. Order of events matches the
source: `img.shape[2]` is evaluated first, so a tensor of rank below 3
raises `IndexError` (`tuple index out of range`), which is not a
`ValueError` and lands in the generic line-175 handler; then the channel
check, then the rank check, then `ToPILImage()(img.permute(2, 0, 1))`. -/
def processElement (env : Env) (img : Tensor) : Except String PILImage :=
  if img.shape.length < 3 then
    .error "Error converting image tensor to PIL Image: tuple index out of range"
  else if img.shape.getD 2 0 ≠ 1 ∧ img.shape.getD 2 0 ≠ 3 then
    .error ("Image processing error: Expected image tensor to have 1 or 3 channels, but got "
      ++ toString (img.shape.getD 2 0))
  else if img.shape.length ≠ 3 then
    .error ("Image processing error: Expected image tensor to have 3 dimensions (C, H, W), but got "
      ++ toString img.shape.length)
  else
    match env.toPIL img.permute201 with
    | .ok p => .ok p
    | .error (.valueError e) => .error ("Image processing error: " ++ e)
    | .error (.otherExc e) => .error ("Error converting image tensor to PIL Image: " ++ e)

/-- The `for img in image` loop of lines 164-176: fail-fast left-to-right
conversion; the first failing element's message is returned and no later
element is examined. -/
def convertImages (env : Env) : List Tensor → Except String (List PILImage)
  | [] => .ok []
  | img :: rest =>
    match processElement env img with
    | .error e => .error e
    | .ok p =>
      match convertImages env rest with
      | .error e => .error e
      | .ok ps => .ok (p :: ps)

/-- Helper for `splitImg`: prepend a character to the first chunk. -/
def consHead (c : Char) : List (List Char) → List (List Char)
  | [] => [[c]]
  | chunk :: chunks => (c :: chunk) :: chunks

/-- Python `text.split('<image>')`: greedy leftmost, non-overlapping
splitting on the fixed seven-character marker, keeping empty chunks. -/
def splitImg : List Char → List (List Char)
  | '<' :: 'i' :: 'm' :: 'a' :: 'g' :: 'e' :: '>' :: rest => [] :: splitImg rest
  | c :: rest => consHead c (splitImg rest)
  | [] => [[]]

/-- Lines 189-190: tokenize every chunk of the rendered text
(`text_chunks = [tokenizer(chunk).input_ids for chunk in text.split('<image>')]`),
then assemble `text_chunks[0] + [-200] + text_chunks[1]`. Indexing
`text_chunks[1]` with fewer than two chunks raises `IndexError`, which
escapes to the catch-all of `generate_answer`. -/
def encode_input_ids (tk : Tokenizer) (text : List Char) : Except String (List Int) :=
  match (splitImg text).map tk.tokenize with
  | c0 :: c1 :: _ => .ok ((c0.map Int.ofNat) ++ [-200] ++ (c1.map Int.ofNat))
  | _ => .error "list index out of range"

/-- The `.unsqueeze(0)` of line 190: the assembled sequence as a
batch-of-one tensor. -/
def encode_batch (tk : Tokenizer) (text : List Char) : Except String (List (List Int)) :=
  match encode_input_ids tk text with
  | .ok ids => .ok [ids]
  | .error e => .error e

/-- The `image` argument of `generate_answer`: either a torch tensor
(a batch whose iteration yields the rank-reduced elements) or any
non-tensor value, which only the `isinstance` check can observe. -/
inductive ImageInput where
  | tensor (batch : List Tensor)
  | notTensor

/-- The `prompt` argument: a string or any non-string value. -/
inductive PromptInput where
  | str (chars : List Char)
  | notStr

/-- Modelled from the spec: `unload_model` of `utils/quantization_utils`
(imported at line 7 but not under `src/`). Per the collaborator contract,
it unloads a previously loaded model, releasing its memory; on the
embedded state this marks the referenced model's weights as released. It
cannot rebind the caller's `self.model` attribute. -/
def unload_model_state (st : NodeState) : NodeState :=
  { st with modelReleased := true }

/-- The body of the `try` of lines 162-217, given that the guards of lines
154-160 have passed (`m`/`tk` are the loaded model and tokenizer, `batch`
the tensor batch, `prompt` the prompt string). `.ok` is a `return` from
inside the `try`; `.error` is an exception escaping to the line-218
catch-all: the `IndexError` of `text_chunks[1]` or the `AttributeError` of
reading the never-assigned `self.cache` at line 213. -/
def try_body (env : Env) (st1 : NodeState) (m : Model) (tk : Tokenizer)
    (batch : List Tensor) (prompt : List Char) : Except String (NodeState × String) :=
  match convertImages env batch with
  | .error msg => .ok (st1, msg)
  | .ok pil_images =>
    let text := tk.applyChatTemplate (imageMarker ++ '\n' :: prompt)
    match encode_batch tk text with
    | .error e => .error e
    | .ok input_ids =>
      match m.processImages pil_images with
      | .error e => .ok (st1, "Error processing images with the model: " ++ e)
      | .ok image_tensor =>
        match m.generate input_ids image_tensor with
        | .error e => .ok (st1, "Error during model generation: " ++ e)
        | .ok output_ids =>
          let answer := (tk.decode (output_ids.drop (input_ids.headD []).length)).trim
          match st1.cache with
          | none => .error "'DolphinVisionNode' object has no attribute 'cache'"
          | some c =>
            if c then .ok (st1, answer)
            else .ok ({ unload_model_state st1 with quantized := false }, answer)

/-- `generate_answer(image, prompt, **kwargs)`, lines 138-219, the unit's
public entry point. The result type records the unit boundary: `.ok` is a
returned one-string tuple, `.error` would be an exception crossing the
boundary. Line 153 calls `load_model` outside any `try` and discards its
returned error tuple; then the `self.model is None or self.tokenizer is
None` guard, the two `isinstance` guards, and the big `try` with its
catch-all. -/
def generate_answer (env : Env) (st : NodeState) (image : ImageInput)
    (prompt : PromptInput) (quantization_type : String) (cache : Bool) :
    Except String (NodeState × String) :=
  let st1 := (load_model env st quantization_type cache).1
  match st1.model, st1.tokenizer with
  | some m, some tk =>
    match image with
    | .notTensor => .ok (st1, "Invalid input: 'image' must be a PyTorch tensor.")
    | .tensor batch =>
      match prompt with
      | .notStr => .ok (st1, "Invalid input: 'prompt' must be a string.")
      | .str p =>
        match try_body env st1 m tk batch p with
        | .ok r => .ok r
        | .error e => .ok (st1, "An unexpected error occurred: " ++ e)
  | _, _ =>
    .ok (st1, "Model not loaded. Please check the node's configuration and ensure the model is loaded successfully.")

/-- `IS_CHANGED(cls, image, prompt, **kwargs)`, lines 221-238: `0` when
either input is `None`, otherwise Python's `hash` of the pair
`(image.tobytes(), prompt)`; the process-wide `hash` function is the
`pyhash` parameter. -/
def IS_CHANGED (pyhash : List Nat × String → Int) (image : Option Tensor)
    (prompt : Option String) : Int :=
  match image, prompt with
  | none, _ => 0
  | _, none => 0
  | some img, some p => pyhash (img.data, p)

/-- `unload(self)`, lines 240-245: call the backend's `unload_model` when
`self.model` is truthy (a loaded model object is always truthy), else do
nothing. -/
def unload (st : NodeState) : NodeState :=
  if st.model.isSome then unload_model_state st else st

end DolphinVision

namespace DolphinVision

/-- Join a chunk list back with the image marker between chunks: the
inverse reading of `splitImg`, used to state which part of the original
text each chunk is. -/
def joinM : List (List Char) → List Char
  | [] => []
  | [c] => c
  | c :: rest => c ++ imageMarker ++ joinM rest

theorem consHead_ne_nil (c : Char) (l : List (List Char)) : consHead c l ≠ [] := by
  cases l <;> simp [consHead]

theorem splitImg_ne_nil (s : List Char) : splitImg s ≠ [] := by
  induction s using splitImg.induct with
  | case1 rest ih => simp [splitImg]
  | case2 c rest h ih =>
    rw [splitImg.eq_def]
    split
    · simp
    · exact consHead_ne_nil _ _
    · simp
  | case3 => simp [splitImg]

theorem splitImg_marker_append (rest : List Char) :
    splitImg (imageMarker ++ rest) = [] :: splitImg rest := rfl

theorem splitImg_nil : splitImg [] = [[]] := rfl

theorem splitImg_cons (c : Char) (rest : List Char)
    (h : ∀ r : List Char, ¬(c :: rest = '<' :: 'i' :: 'm' :: 'a' :: 'g' :: 'e' :: '>' :: r)) :
    splitImg (c :: rest) = consHead c (splitImg rest) := by
  rw [splitImg.eq_def]
  split
  · rename_i r heq
    exact absurd heq (h r)
  · rename_i heq
    injection heq with h1 h2
    subst h1; subst h2; rfl
  · simp_all

theorem joinM_cons (c : List Char) (l : List (List Char)) (h : l ≠ []) :
    joinM (c :: l) = c ++ imageMarker ++ joinM l := by
  cases l with
  | nil => exact absurd rfl h
  | cons d t => rfl

theorem joinM_consHead (c : Char) (l : List (List Char)) (h : l ≠ []) :
    joinM (consHead c l) = c :: joinM l := by
  cases l with
  | nil => exact absurd rfl h
  | cons chunk chunks =>
    cases chunks with
    | nil => rfl
    | cons d t => simp [consHead, joinM]

/-- Splitting then re-joining is the identity: each chunk is literally a
segment of the original text, in order, with one marker occurrence
between consecutive chunks. -/
theorem splitImg_join (s : List Char) : joinM (splitImg s) = s := by
  induction s using splitImg.induct with
  | case1 rest ih =>
    rw [splitImg.eq_def]
    simp only []
    rw [joinM_cons _ _ (splitImg_ne_nil rest), ih]
    rfl
  | case2 c rest h ih =>
    rw [splitImg_cons c rest (fun r hr => h r (by injection hr) (by injection hr))]
    rw [joinM_consHead c _ (splitImg_ne_nil rest), ih]
  | case3 => rfl

/-- The first chunk of a split is a prefix of the text. -/
theorem splitImg_head_isPrefix (s : List Char) (c0 : List Char) (l : List (List Char))
    (h : splitImg s = c0 :: l) : c0 <+: s := by
  have hj := splitImg_join s
  rw [h] at hj
  cases l with
  | nil => exact hj ▸ List.prefix_refl c0
  | cons d t =>
    rw [joinM_cons _ _ (by simp)] at hj
    exact ⟨imageMarker ++ joinM (d :: t), by rw [← List.append_assoc, hj]⟩

/-- No chunk produced by `splitImg` contains a marker occurrence: splitting
a chunk again leaves it whole. This is what makes the first two chunks
"the text before the first marker" and "the text between the first and
second markers". -/
theorem splitImg_chunk_markerfree (s : List Char) :
    ∀ chunk ∈ splitImg s, splitImg chunk = [chunk] := by
  induction s using splitImg.induct with
  | case1 rest ih =>
    rw [splitImg.eq_def]
    simp only []
    intro chunk hc
    rcases List.mem_cons.1 hc with h | h
    · subst h; rfl
    · exact ih chunk h
  | case2 c rest h ih =>
    have hnp : ∀ r : List Char, ¬(c :: rest = '<' :: 'i' :: 'm' :: 'a' :: 'g' :: 'e' :: '>' :: r) :=
      fun r hr => h r (by injection hr) (by injection hr)
    rw [splitImg_cons c rest hnp]
    obtain ⟨ch0, chs, hrest⟩ : ∃ ch0 chs, splitImg rest = ch0 :: chs := by
      cases hsp : splitImg rest with
      | nil => exact absurd hsp (splitImg_ne_nil rest)
      | cons a b => exact ⟨a, b, rfl⟩
    rw [hrest]
    intro chunk hc
    simp only [consHead] at hc
    rcases List.mem_cons.1 hc with hq | hq
    · subst hq
      have hpre : ch0 <+: rest := splitImg_head_isPrefix rest ch0 chs hrest
      have hnp2 : ∀ r : List Char, ¬(c :: ch0 = '<' :: 'i' :: 'm' :: 'a' :: 'g' :: 'e' :: '>' :: r) := by
        intro r hr
        have hmk : imageMarker <+: c :: ch0 := ⟨r, hr.symm⟩
        have hcc : c :: ch0 <+: c :: rest := by
          obtain ⟨u, hu⟩ := hpre
          exact ⟨u, by rw [List.cons_append, hu]⟩
        have : imageMarker <+: c :: rest := hmk.trans hcc
        obtain ⟨t, ht⟩ := this
        exact hnp t ht.symm
      rw [splitImg_cons c ch0 hnp2]
      rw [ih ch0 (hrest ▸ List.mem_cons_self ch0 chs)]
      rfl
    · exact ih chunk (hrest ▸ List.mem_cons_of_mem ch0 hq)
  | case3 =>
    intro chunk hc
    rcases List.mem_singleton.1 hc with rfl
    rfl

end DolphinVision

namespace DolphinVision

/-- A concrete model whose collaborator calls all succeed. -/
def model0 : Model :=
  { processImages := fun _ => .ok 0,
    generate := fun ids _ => .ok ((ids.headD []) ++ [5, 6]) }

/-- A concrete tokenizer: the chat template renders the user content
unchanged (so the rendered text carries exactly the markers of the
content), each chunk tokenizes to one id, decoding is a fixed string. -/
def tok0 : Tokenizer :=
  { applyChatTemplate := fun content => content,
    tokenize := fun chunk => [chunk.length],
    decode := fun _ => "a description" }

/-- An environment in which every external collaborator succeeds. -/
def envOK : Env :=
  { fromPretrained := .ok model0,
    quantize := fun _ _ => .ok (some model0),
    loadTokenizer := .ok tok0,
    toPIL := fun _ => .ok 0 }

/-- Environment whose model load succeeds but whose tokenizer load raises. -/
def envTokFail : Env :=
  { fromPretrained := .ok model0,
    quantize := fun _ _ => .ok (some model0),
    loadTokenizer := .error "boom",
    toPIL := fun _ => .ok 0 }

/-- The valid (64, 64, 3) image of spec scenario 6. -/
def img0 : Tensor := { shape := [64, 64, 3], data := [] }

/-- A rank-2 image element (no third shape entry). -/
def imgRank2 : Tensor := { shape := [64, 64], data := [] }

/-- The (64, 64, 5) image of spec scenario 7. -/
def img5ch : Tensor := { shape := [64, 64, 5], data := [] }

/-- A state holding a loaded model reference. -/
def loadedState : NodeState := { initState with model := some model0 }

/-- C10: `unload` releases the weights through the backend when a model is
present, does nothing when none is, and is idempotent on the state. -/
theorem unload_spec (st : NodeState) :
    (st.model = none → unload st = st) ∧
    unload (unload st) = unload st ∧
    (st.model.isSome = true → (unload st).modelReleased = true) := by
  refine ⟨?_, ?_, ?_⟩
  · intro h
    simp [unload, h]
  · by_cases h : st.model.isSome = true <;>
      simp [unload, unload_model_state, h]
  · intro h
    simp [unload, unload_model_state, h]

/-- Witness for C10 at the freshly initialized state and at a state with a
loaded model. -/
theorem unload_spec_witness :
    unload initState = initState ∧ (unload loadedState).modelReleased = true :=
  ⟨(unload_spec initState).1 rfl, (unload_spec loadedState).2.2 rfl⟩

/-- C6: the change-detection fingerprint is 0 when either input is absent,
and is a deterministic pure function of the image byte content and the
prompt text. -/
theorem fingerprint_spec (pyhash : List Nat × String → Int)
    (img img2 : Tensor) (p p2 : String) (x : Option Tensor) (y : Option String)
    (hdata : img.data = img2.data) (hp : p = p2) :
    IS_CHANGED pyhash none y = 0 ∧
    IS_CHANGED pyhash x none = 0 ∧
    IS_CHANGED pyhash (some img) (some p) = IS_CHANGED pyhash (some img2) (some p2) := by
  refine ⟨?_, ?_, ?_⟩
  · cases y <;> rfl
  · cases x <;> rfl
  · simp [IS_CHANGED, hdata, hp]

/-- Witness for C6 at a concrete hash function, tensor and prompt. -/
theorem fingerprint_spec_witness :
    IS_CHANGED (fun _ => 7) none (some "p") = 0 ∧
    IS_CHANGED (fun _ => 7) (some img0) none = 0 ∧
    IS_CHANGED (fun _ => 7) (some img0) (some "p") =
      IS_CHANGED (fun _ => 7) (some img0) (some "p") :=
  fingerprint_spec (fun _ => 7) img0 img0 "p" "p" (some img0) (some "p") rfl rfl

/-- C2 fails on the code: for the unrecognized label, `load_model` does
return the tuple `("Invalid quantization type.",)`, but `generate_answer`
discards that return value at line 153 and, finding `self.model` still
`None`, answers with the generic "Model not loaded." message instead. -/
theorem invalid_quantization_message_lost :
    load_model envOK initState "unsupported-label" false =
      (initState, some "Invalid quantization type.") ∧
    generate_answer envOK initState (.tensor [img0]) (.str []) "unsupported-label" false =
      .ok (initState,
        "Model not loaded. Please check the node's configuration and ensure the model is loaded successfully.") :=
  ⟨rfl, rfl⟩

/-- C3's counterexample: when the model loads and the tokenizer load then
fails, `load_model` reports the failure but `self.model` keeps the loaded
model reference — the manager does not revert to the Unloaded state. -/
theorem tokenizer_failure_model_retained :
    load_model envTokFail initState bf16_label false =
      (loadedState, some "Error loading tokenizer: boom") ∧
    loadedState.model.isSome = true :=
  ⟨rfl, rfl⟩

/-- C4's counterexample: a rank-2 element fails with the wrapped
`IndexError` of evaluating `img.shape[2]` (the generic conversion-error
message), not with a shape error naming the actual shape: the message does
not contain the "Expected image tensor" wording and no dimension number. -/
theorem rank2_error_not_shape_error :
    convertImages envOK [imgRank2] =
      .error "Error converting image tensor to PIL Image: tuple index out of range" ∧
    ¬ ("Expected image tensor".toList <:+:
      "Error converting image tensor to PIL Image: tuple index out of range".toList) ∧
    ¬ ("64".toList <:+:
      "Error converting image tensor to PIL Image: tuple index out of range".toList) :=
  ⟨rfl, by decide, by decide⟩

end DolphinVision

namespace DolphinVision

/-- C1 fails on the code: a fully successful run with `cache=false` (here
the 4-bit label, spec scenario inputs) reaches decoding, then line 213
reads the never-assigned `self.cache`, raising `AttributeError`; the
catch-all turns it into an "unexpected error" message. The backend unload
is never triggered (`modelReleased` stays `false`), the quantized flag is
not reset (still `true`), the decoded description is not returned, and the
model reference is still present afterwards. -/
theorem cache_false_unload_never_runs :
    generate_answer envOK initState (.tensor [img0]) (.str "Describe the image.".toList)
        nf4_label false =
      .ok ({ model := some model0, tokenizer := some tok0, quantized := true,
             cache := none, modelReleased := false },
        "An unexpected error occurred: 'DolphinVisionNode' object has no attribute 'cache'") := by
  rfl

/-- C5: a rendered text that splits into exactly two chunks (exactly one
marker occurrence) encodes to a batch-of-one sequence
prefix-ids ++ [-200] ++ suffix-ids, and since token ids are nonnegative,
the sentinel occurs exactly once, at the index equal to the token length
of the prefix chunk; the prefix chunk is literally the text before the
marker. -/
theorem single_marker_encoding (tk : Tokenizer) (text c0 c1 : List Char)
    (h : splitImg text = [c0, c1]) :
    ∃ ids : List Int,
      encode_batch tk text = .ok [ids] ∧
      ids = (tk.tokenize c0).map Int.ofNat ++ [-200] ++ (tk.tokenize c1).map Int.ofNat ∧
      ids.count (-200) = 1 ∧
      ids[(tk.tokenize c0).length]? = some (-200) ∧
      text = c0 ++ imageMarker ++ c1 := by
  have h0 : ((tk.tokenize c0).map Int.ofNat).count (-200 : Int) = 0 := by
    rw [List.count_eq_zero]
    intro hmem
    obtain ⟨n, hn, hx⟩ := List.mem_map.1 hmem
    rw [Int.ofNat_eq_natCast] at hx
    omega
  have h1 : ((tk.tokenize c1).map Int.ofNat).count (-200 : Int) = 0 := by
    rw [List.count_eq_zero]
    intro hmem
    obtain ⟨n, hn, hx⟩ := List.mem_map.1 hmem
    rw [Int.ofNat_eq_natCast] at hx
    omega
  refine ⟨_, ?_, rfl, ?_, ?_, ?_⟩
  · unfold encode_batch encode_input_ids
    rw [h]
    rfl
  · rw [List.count_append, List.count_append, h0, h1]
    rfl
  · rw [List.append_assoc,
      List.getElem?_append_right (by simp)]
    simp
  · have hj := splitImg_join text
    rw [h] at hj
    rw [← hj]
    rfl

/-- A concrete rendered text with exactly one marker. -/
def textOne : List Char := "a<image>bc".toList

/-- Witness for C5 at a concrete tokenizer and text. -/
theorem single_marker_encoding_witness :
    ∃ ids : List Int,
      encode_batch tok0 textOne = .ok [ids] ∧
      ids = (tok0.tokenize ['a']).map Int.ofNat ++ [-200] ++
        (tok0.tokenize ['b', 'c']).map Int.ofNat ∧
      ids.count (-200) = 1 ∧
      ids[(tok0.tokenize ['a']).length]? = some (-200) ∧
      textOne = ['a'] ++ imageMarker ++ ['b', 'c'] :=
  single_marker_encoding tok0 textOne ['a'] ['b', 'c'] (by decide)

/-- C9: a rendered text that splits into three or more chunks (two or more
marker occurrences) still encodes without an error, using only the first
two chunks — the marker-free text before the first marker and the
marker-free text between the first and second markers — with one sentinel
between them; everything from the second marker on is dropped. -/
theorem multi_marker_first_two (tk : Tokenizer) (text c0 c1 c2 : List Char)
    (rest : List (List Char)) (h : splitImg text = c0 :: c1 :: c2 :: rest) :
    encode_batch tk text =
      .ok [(tk.tokenize c0).map Int.ofNat ++ [-200] ++ (tk.tokenize c1).map Int.ofNat] ∧
    text = c0 ++ imageMarker ++ c1 ++ imageMarker ++ joinM (c2 :: rest) ∧
    splitImg c0 = [c0] ∧ splitImg c1 = [c1] := by
  refine ⟨?_, ?_, ?_, ?_⟩
  · unfold encode_batch encode_input_ids
    rw [h]
    rfl
  · have hj := splitImg_join text
    rw [h] at hj
    rw [joinM_cons _ _ (by simp), joinM_cons _ _ (by simp)] at hj
    rw [← hj]
    simp [List.append_assoc]
  · exact splitImg_chunk_markerfree text c0 (h ▸ List.mem_cons_self _ _)
  · exact splitImg_chunk_markerfree text c1
      (h ▸ List.mem_cons_of_mem _ (List.mem_cons_self _ _))

/-- A concrete rendered text with two markers. -/
def textTwo : List Char := "x<image>y<image>z".toList

/-- Witness for C9 at a concrete tokenizer and text. -/
theorem multi_marker_first_two_witness :
    encode_batch tok0 textTwo =
      .ok [(tok0.tokenize ['x']).map Int.ofNat ++ [-200] ++
        (tok0.tokenize ['y']).map Int.ofNat] ∧
    textTwo = ['x'] ++ imageMarker ++ ['y'] ++ imageMarker ++ joinM [['z']] ∧
    splitImg ['x'] = [['x']] ∧ splitImg ['y'] = [['y']] :=
  multi_marker_first_two tok0 textTwo ['x'] ['y'] ['z'] [] (by decide)

end DolphinVision

namespace DolphinVision

/-- C7: for every input and every behavior of the external collaborators,
`generate_answer` returns a one-string result tuple; no exception crosses
the unit boundary (an escape would be an `.error` of the result type). -/
theorem no_exception_crosses_boundary (env : Env) (st : NodeState)
    (image : ImageInput) (prompt : PromptInput) (quantization_type : String)
    (cache : Bool) :
    ∃ r : NodeState × String,
      generate_answer env st image prompt quantization_type cache = .ok r := by
  simp only [generate_answer]
  repeat' split
  all_goals exact ⟨_, rfl⟩

/-- C8: `load_model` runs, with its side effects, before the `isinstance`
type checks: on a non-tensor image or a non-string prompt the type-error
message is returned together with the post-load state (the loaded model
and tokenizer are in the returned state even though the request was
rejected). -/
theorem load_runs_before_type_checks (env : Env) (st : NodeState)
    (quantization_type : String) (cache : Bool) (m : Model) (tk : Tokenizer)
    (prompt : PromptInput) (batch : List Tensor)
    (hm : (load_model env st quantization_type cache).1.model = some m)
    (ht : (load_model env st quantization_type cache).1.tokenizer = some tk) :
    generate_answer env st .notTensor prompt quantization_type cache =
      .ok ((load_model env st quantization_type cache).1,
        "Invalid input: 'image' must be a PyTorch tensor.") ∧
    generate_answer env st (.tensor batch) .notStr quantization_type cache =
      .ok ((load_model env st quantization_type cache).1,
        "Invalid input: 'prompt' must be a string.") := by
  constructor
  · simp only [generate_answer]
    rw [hm, ht]
  · simp only [generate_answer]
    rw [hm, ht]

/-- Witness for C8: a concrete succeeding environment, where the rejected
request still returns the state produced by the load. -/
theorem load_runs_before_type_checks_witness :
    generate_answer envOK initState .notTensor (.str []) bf16_label false =
      .ok ((load_model envOK initState bf16_label false).1,
        "Invalid input: 'image' must be a PyTorch tensor.") ∧
    generate_answer envOK initState (.tensor [img0]) .notStr bf16_label false =
      .ok ((load_model envOK initState bf16_label false).1,
        "Invalid input: 'prompt' must be a string.") :=
  load_runs_before_type_checks envOK initState bf16_label false model0 tok0
    (.str []) [img0] rfl rfl

/-- C3 amended: when the model loads and the tokenizer load then fails
(fresh instance), the load is reported as a failure and the unit is not
treated as ready (the tokenizer reference is absent, so `generate_answer`
answers "Model not loaded."), but the manager does not revert to the
Unloaded state: the model reference remains set. -/
theorem tokenizer_failure_amended (env : Env) (st : NodeState) (qt : String)
    (cache : Bool) (e : String) (m : Model) (image : ImageInput)
    (prompt : PromptInput)
    (hTok : env.loadTokenizer = .error e)
    (hm0 : st.model = none) (ht0 : st.tokenizer = none)
    (hload : (load_model env st qt cache).1.model = some m) :
    (load_model env st qt cache).2 = some ("Error loading tokenizer: " ++ e) ∧
    (load_model env st qt cache).1.tokenizer = none ∧
    generate_answer env st image prompt qt cache =
      .ok ((load_model env st qt cache).1,
        "Model not loaded. Please check the node's configuration and ensure the model is loaded successfully.") := by
  have hfin : ∀ (st' : NodeState) (m' : Model), st'.model = some m' →
      st'.tokenizer = none →
      load_finish env st' = (st', some ("Error loading tokenizer: " ++ e)) := by
    intro st' m' h1 h2
    unfold load_finish
    rw [h1, hTok]
    rfl
  obtain ⟨st1, heq, htk⟩ :
      ∃ st1, load_model env st qt cache =
        (st1, some ("Error loading tokenizer: " ++ e)) ∧ st1.tokenizer = none := by
    unfold load_model at hload ⊢
    cases hq : quantization_map qt with
    | none =>
      simp only [hq] at hload
      simp [hm0] at hload
    | some pr =>
      obtain ⟨meth, bits⟩ := pr
      cases meth with
      | bf16 =>
        simp only [hq] at hload
        cases hfp : env.fromPretrained with
        | ok fm =>
          exact ⟨_, hfin _ fm rfl ht0, ht0⟩
        | error fe =>
          cases fe with
          | notFoundOrOS s => simp [hfp, hm0] at hload
          | otherExc s => simp [hfp, hm0] at hload
      | bitsandbytes =>
        simp only [hq] at hload
        cases hqz : env.quantize bits cache with
        | ok mo =>
          simp only [hqz] at hload
          cases mo with
          | none => simp [load_finish] at hload
          | some fm =>
            simp only [hqz]
            exact ⟨_, hfin _ fm rfl ht0, ht0⟩
        | error s =>
          simp [hqz, hm0] at hload
  refine ⟨by rw [heq], by rw [heq]; exact htk, ?_⟩
  simp only [generate_answer, heq]
  rw [htk]
  cases st1.model <;> rfl

/-- Witness for C3's amended statement in the concrete tokenizer-failing
environment. -/
theorem tokenizer_failure_amended_witness :
    (load_model envTokFail initState bf16_label false).2 =
      some ("Error loading tokenizer: " ++ "boom") ∧
    (load_model envTokFail initState bf16_label false).1.tokenizer = none ∧
    generate_answer envTokFail initState (.tensor [img0]) (.str []) bf16_label false =
      .ok ((load_model envTokFail initState bf16_label false).1,
        "Model not loaded. Please check the node's configuration and ensure the model is loaded successfully.") :=
  tokenizer_failure_amended envTokFail initState bf16_label false "boom" model0
    (.tensor [img0]) (.str []) rfl rfl rfl rfl

/-- Fail-fast behavior of the conversion loop: once an element fails, the
batch result is that element's error, whatever follows it. -/
theorem convertImages_failfast (env : Env) (img : Tensor) (msg : String)
    (pre post : List Tensor)
    (hpre : ∀ t ∈ pre, ∃ p, processElement env t = .ok p)
    (hbad : processElement env img = .error msg) :
    convertImages env (pre ++ img :: post) = .error msg := by
  induction pre with
  | nil =>
    simp only [List.nil_append, convertImages, hbad]
  | cons a l ih =>
    obtain ⟨p, hp⟩ := hpre a (List.mem_cons_self a l)
    have ih2 := ih (fun t ht => hpre t (List.mem_cons_of_mem a ht))
    simp only [List.cons_append, convertImages, hp, List.append_eq, ih2]

/-- C4 amended: a bad element fails the whole batch fail-fast (no later
element matters), but the error message depends on how the shape is bad:
rank below 3 produces the wrapped IndexError of reading `shape[2]` (the
generic conversion message, naming no shape); rank at least 3 with bad
channel count produces the channel message; rank above 3 with an accepted
channel count produces the dimension message. -/
theorem image_shape_amended (env : Env) (img : Tensor) (pre post : List Tensor)
    (hpre : ∀ t ∈ pre, ∃ p, processElement env t = .ok p)
    (hbad : img.shape.length ≠ 3 ∨ (img.shape.getD 2 0 ≠ 1 ∧ img.shape.getD 2 0 ≠ 3)) :
    ∃ msg, processElement env img = .error msg ∧
      convertImages env (pre ++ img :: post) = .error msg ∧
      (img.shape.length < 3 →
        msg = "Error converting image tensor to PIL Image: tuple index out of range") ∧
      (3 ≤ img.shape.length → img.shape.getD 2 0 ≠ 1 → img.shape.getD 2 0 ≠ 3 →
        msg = "Image processing error: Expected image tensor to have 1 or 3 channels, but got "
          ++ toString (img.shape.getD 2 0)) ∧
      (3 ≤ img.shape.length → (img.shape.getD 2 0 = 1 ∨ img.shape.getD 2 0 = 3) →
        msg = "Image processing error: Expected image tensor to have 3 dimensions (C, H, W), but got "
          ++ toString img.shape.length) := by
  by_cases hlen : img.shape.length < 3
  · have hpe : processElement env img =
        .error "Error converting image tensor to PIL Image: tuple index out of range" := by
      unfold processElement
      rw [if_pos hlen]
    exact ⟨_, hpe, convertImages_failfast env img _ pre post hpre hpe,
      fun _ => rfl, fun h3 _ _ => absurd hlen (by omega),
      fun h3 _ => absurd hlen (by omega)⟩
  · by_cases hch : img.shape.getD 2 0 ≠ 1 ∧ img.shape.getD 2 0 ≠ 3
    · have hpe : processElement env img =
          .error ("Image processing error: Expected image tensor to have 1 or 3 channels, but got "
            ++ toString (img.shape.getD 2 0)) := by
        unfold processElement
        rw [if_neg hlen, if_pos hch]
      exact ⟨_, hpe, convertImages_failfast env img _ pre post hpre hpe,
        fun hl => absurd hl hlen, fun _ _ _ => rfl,
        fun _ hor => absurd hor (by tauto)⟩
    · have hne3 : img.shape.length ≠ 3 := by
        rcases hbad with h | h
        · exact h
        · exact absurd h hch
      have hpe : processElement env img =
          .error ("Image processing error: Expected image tensor to have 3 dimensions (C, H, W), but got "
            ++ toString img.shape.length) := by
        unfold processElement
        rw [if_neg hlen, if_neg hch, if_pos hne3]
      exact ⟨_, hpe, convertImages_failfast env img _ pre post hpre hpe,
        fun hl => absurd hl hlen, fun _ h1 h3 => absurd ⟨h1, h3⟩ hch,
        fun _ _ => rfl⟩

/-- Witness for C4's amended statement at the (64, 64, 5) element of spec
scenario 7, alone in its batch. -/
theorem image_shape_amended_witness :
    ∃ msg, processElement envOK img5ch = .error msg ∧
      convertImages envOK [img5ch] = .error msg ∧
      (img5ch.shape.length < 3 →
        msg = "Error converting image tensor to PIL Image: tuple index out of range") ∧
      (3 ≤ img5ch.shape.length → img5ch.shape.getD 2 0 ≠ 1 → img5ch.shape.getD 2 0 ≠ 3 →
        msg = "Image processing error: Expected image tensor to have 1 or 3 channels, but got "
          ++ toString (img5ch.shape.getD 2 0)) ∧
      (3 ≤ img5ch.shape.length → (img5ch.shape.getD 2 0 = 1 ∨ img5ch.shape.getD 2 0 = 3) →
        msg = "Image processing error: Expected image tensor to have 3 dimensions (C, H, W), but got "
          ++ toString img5ch.shape.length) := by
  exact image_shape_amended envOK img5ch [] []
    (by simp) (Or.inr ⟨by decide, by decide⟩)

end DolphinVision
